import Mathlib

/-!
# gee: a flat exact-match HTTP router

Verification development for `gee/gee.go`.  The Go program keeps one map from
route keys (`method + "-" + path`) to handler functions; `GET` and `POST` store
into it and `ServeHTTP` looks a request up in it.

Modelling decisions.

* The Go `map[string]HandlerFunc` is a finite map with extensional equality:
  `Finmap` over `String` keys.  A write `m[k] = v` is `Finmap.insert`, the
  comma-ok read `v, ok := m[k]` is `Finmap.lookup`.
* `http.ResponseWriter` is an interface of the standard library.  It is
  modelled by an in-memory recorder with an explicitly set status code, a
  header list and the bytes written so far.
* A handler is a Go function value `func(http.ResponseWriter, *http.Request)`.
  It is modelled as a total function that transforms the recorder.  To make
  "which handler was invoked, how often, with which arguments" observable,
  every call site `handler(w, req)` of the source is logged as a `Call`.
  Func values that close over the router and write its table while they run
  are treated in the part `Stateful`, where running a func value is a
  transition on the router and the recorder.
* A router state is an `Engine` whose map exists, as in every router made by
  `New`; a handler is a callable, the nil function value is not one.
* `fmt.Fprintf(w, "404 NOT FOUND: %s\n", req.URL)` renders `req.URL` with the
  standard library method `(*url.URL).String` and performs one `w.Write`.  That
  method is not part of this program; it is a parameter `urlString` of the
  model.
-/

namespace Gee

/-- Header lines of a message: name and value. -/
abbrev Header := List (String × String)

/-- Recorder model of `http.ResponseWriter`: `status` is the code given to
`WriteHeader` (`none` while no code was set), `header` the header map, `body`
everything passed to `Write` so far. -/
structure ResponseWriter where
  status : Option Nat
  header : Header
  body : String

/-- The method `Write` of the sink: the bytes are appended to the body. -/
def ResponseWriter.Write (w : ResponseWriter) (s : String) : ResponseWriter :=
  { w with body := w.body ++ s }

/-- The status code that goes on the wire: the explicitly set one, else 200. -/
def ResponseWriter.statusCode (w : ResponseWriter) : Nat :=
  w.status.getD 200

/-- The fields of `url.URL`. -/
structure URL where
  Scheme : String
  Host : String
  Path : String
  RawQuery : String
  Fragment : String

/-- The fields of `http.Request` that a router or a handler can look at. -/
structure Request where
  Method : String
  URL : URL
  Header : Header
  Body : String
  Host : String

/-- Source: `type HandlerFunc func(http.ResponseWriter, *http.Request)`. -/
abbrev HandlerFunc := ResponseWriter → Request → ResponseWriter

/-- Source: `type Engine struct { Route map[string]HandlerFunc }`. -/
structure Engine where
  Route : Finmap (fun _ : String => HandlerFunc)

/-- Source: `func New() *Engine`, a router over a freshly made map. -/
def New : Engine :=
  { Route := ∅ }

/-- Source: `func (e *Engine) GET(pattern string, handler HandlerFunc)`. -/
def Engine.GET (e : Engine) (pattern : String) (handler : HandlerFunc) : Engine :=
  let key := "GET" ++ "-" ++ pattern
  { e with Route := e.Route.insert key handler }

/-- Source: `func (e *Engine) POST(pattern string, handler HandlerFunc)`. -/
def Engine.POST (e : Engine) (pattern : String) (handler : HandlerFunc) : Engine :=
  let key := "POST" ++ "-" ++ pattern
  { e with Route := e.Route.insert key handler }

/-- One logged execution of the call site `handler(w, req)`. -/
structure Call where
  handler : HandlerFunc
  w : ResponseWriter
  req : Request

/-- What one run of `ServeHTTP` leaves behind: the receiver, the sink, and the
handler invocations it made, in order. -/
structure Outcome where
  engine : Engine
  w : ResponseWriter
  calls : List Call

/-- Source: `fmt.Fprintf(w, format, req.URL)` with format `"404 NOT FOUND: %s\n"`;
the text handed to the single `Write`. -/
def notFoundText (urlString : URL → String) (req : Request) : String :=
  "404 NOT FOUND: " ++ urlString req.URL ++ "\n"

/-- Source: `func (e *Engine) ServeHTTP(w http.ResponseWriter, req *http.Request)`. -/
def Engine.ServeHTTP (urlString : URL → String) (e : Engine) (w : ResponseWriter)
    (req : Request) : Outcome :=
  let key := req.Method ++ "-" ++ req.URL.Path
  match e.Route.lookup key with
  | some handler => { engine := e, w := handler w req, calls := [⟨handler, w, req⟩] }
  | none => { engine := e, w := w.Write (notFoundText urlString req), calls := [] }

/-- A registration call as a value: which wrapper, with which arguments. -/
inductive Registration where
  | GET (pattern : String) (handler : HandlerFunc)
  | POST (pattern : String) (handler : HandlerFunc)

/-- The method a registration wrapper fixes. -/
def Registration.method : Registration → String
  | .GET _ _ => "GET"
  | .POST _ _ => "POST"

/-- The pattern argument of a registration. -/
def Registration.pattern : Registration → String
  | .GET p _ => p
  | .POST p _ => p

/-- The handler argument of a registration. -/
def Registration.handler : Registration → HandlerFunc
  | .GET _ h => h
  | .POST _ h => h

/-- Performing a registration on a router. -/
def Registration.apply (e : Engine) : Registration → Engine
  | .GET p h => e.GET p h
  | .POST p h => e.POST p h

/-- Performing a finite sequence of registrations, first to last. -/
def registerAll (e : Engine) (rs : List Registration) : Engine :=
  rs.foldl Registration.apply e

/-- Specification-side definition, written after the spec's words for
`RegisterRoute(method, path, handler)` ("computes the key as
`method + "-" + path` and stores/overwrites the handler in the route table");
the source has no function of this name, only the two wrappers. -/
def RegisterRoute (e : Engine) (method path : String) (handler : HandlerFunc) : Engine :=
  { e with Route := e.Route.insert (method ++ "-" ++ path) handler }

/-- A rendering of URLs used to instantiate `urlString` at concrete inputs:
the path, then `?` and the query when there is one. -/
def pathAndQuery (u : URL) : String :=
  if u.RawQuery = "" then u.Path else u.Path ++ "?" ++ u.RawQuery

/-- A request with the given method and path and nothing else. -/
def plainRequest (method path : String) : Request :=
  { Method := method, URL := ⟨"", "", path, "", ""⟩, Header := [], Body := "", Host := "" }

/-- A sink nothing was written to. -/
def emptyWriter : ResponseWriter :=
  { status := none, header := [], body := "" }

/-- A handler that writes a fixed text. -/
def writeText (s : String) : HandlerFunc :=
  fun w _ => w.Write s

/-- The route key a registration writes to: the wrapper's method, the
separator, the pattern (the `key` variable of `GET` and `POST`). -/
def Registration.key (r : Registration) : String :=
  r.method ++ "-" ++ r.pattern

/-! ## Handlers that can reach the router

A Go func value may close over the `*Engine` it is registered on and call
`GET`, `POST` or write `e.Route` while it runs.  A function type over the
recorder alone cannot say so.  Here the func values are the elements of a type
`H`, and running one is a transition `call` on the router and the sink; the
three operations are the same lines of `gee.go` as above. -/

namespace Stateful

/-- Source: `type Engine struct { Route map[string]HandlerFunc }`, the func
values being the elements of `H`. -/
structure Engine (H : Type) where
  Route : Finmap (fun _ : String => H)

/-- Source: `func New() *Engine`. -/
def New (H : Type) : Engine H :=
  { Route := ∅ }

/-- Source: `func (e *Engine) GET(pattern string, handler HandlerFunc)`. -/
def Engine.GET {H : Type} (e : Engine H) (pattern : String) (handler : H) : Engine H :=
  let key := "GET" ++ "-" ++ pattern
  { e with Route := e.Route.insert key handler }

/-- Source: `func (e *Engine) POST(pattern string, handler HandlerFunc)`. -/
def Engine.POST {H : Type} (e : Engine H) (pattern : String) (handler : H) : Engine H :=
  let key := "POST" ++ "-" ++ pattern
  { e with Route := e.Route.insert key handler }

/-- One logged execution of the call site `handler(w, req)`. -/
structure Call (H : Type) where
  handler : H
  w : ResponseWriter
  req : Request

/-- What one run of `ServeHTTP` leaves behind: the router, the sink, and the
handler invocations it made, in order. -/
structure Outcome (H : Type) where
  engine : Engine H
  w : ResponseWriter
  calls : List (Call H)

/-- Source: `func (e *Engine) ServeHTTP(w http.ResponseWriter, req *http.Request)`.
The call `handler(w, req)` runs the func value on the router as it is at that
moment and on the sink, and leaves both as the func value left them. -/
def Engine.ServeHTTP {H : Type}
    (call : H → Engine H → ResponseWriter → Request → Engine H × ResponseWriter)
    (urlString : URL → String) (e : Engine H) (w : ResponseWriter) (req : Request) :
    Outcome H :=
  let key := req.Method ++ "-" ++ req.URL.Path
  match e.Route.lookup key with
  | some handler =>
    let after := call handler e w req
    { engine := after.1, w := after.2, calls := [⟨handler, w, req⟩] }
  | none => { engine := e, w := w.Write (notFoundText urlString req), calls := [] }

/-- Running a func value that only transforms the sink: the router is left as
it was.  These are the handlers of the first part of this file. -/
def sinkOnly (h : HandlerFunc) (e : Engine HandlerFunc) (w : ResponseWriter) (req : Request) :
    Engine HandlerFunc × ResponseWriter :=
  (e, h w req)

/-- Three kinds of func value, for concrete routers: one writes a text, the
other two are closures over the router `e` they are registered on,
`func(w, req) { e.GET(pattern, writes text) }` and
`func(w, req) { e.POST(pattern, writes text) }`. -/
inductive Closure where
  | writes (text : String)
  | callsGET (pattern text : String)
  | callsPOST (pattern text : String)
  deriving DecidableEq

/-- Running a `Closure`. -/
def Closure.call : Closure → Engine Closure → ResponseWriter → Request →
    Engine Closure × ResponseWriter
  | .writes text, e, w, _ => (e, w.Write text)
  | .callsGET pattern text, e, w, _ => (e.GET pattern (.writes text), w)
  | .callsPOST pattern text, e, w, _ => (e.POST pattern (.writes text), w)

end Stateful

/-! ## Route keys -/

theorem key_GET_inj {p q : String} (h : "GET" ++ "-" ++ p = "GET" ++ "-" ++ q) : p = q := by
  have := congrArg String.data h
  simp only [String.data_append] at this
  exact String.ext (List.append_cancel_left this)

theorem key_POST_inj {p q : String} (h : "POST" ++ "-" ++ p = "POST" ++ "-" ++ q) : p = q := by
  have := congrArg String.data h
  simp only [String.data_append] at this
  exact String.ext (List.append_cancel_left this)

theorem key_GET_ne_POST (p q : String) : "GET" ++ "-" ++ p ≠ "POST" ++ "-" ++ q := by
  intro h
  have := congrArg String.data h
  simp [String.data_append] at this

theorem key_lower_ne_GET (p q : String) : "get" ++ "-" ++ p ≠ "GET" ++ "-" ++ q := by
  intro h
  have := congrArg String.data h
  simp [String.data_append] at this

theorem key_eq_iff (r r' : Registration) :
    r.key = r'.key ↔ r.method = r'.method ∧ r.pattern = r'.pattern := by
  constructor
  · intro h
    cases r <;> cases r' <;> simp only [Registration.key, Registration.method,
      Registration.pattern] at h
    · exact ⟨rfl, key_GET_inj h⟩
    · exact absurd h (key_GET_ne_POST _ _)
    · exact absurd h.symm (key_GET_ne_POST _ _)
    · exact ⟨rfl, key_POST_inj h⟩
  · rintro ⟨h1, h2⟩
    simp [Registration.key, h1, h2]

/-! ## The route table under registration -/

theorem apply_Route (e : Engine) (r : Registration) :
    (r.apply e).Route = e.Route.insert r.key r.handler := by
  cases r <;> rfl

theorem registerAll_nil (e : Engine) : registerAll e [] = e := rfl

theorem registerAll_cons (e : Engine) (r : Registration) (rs : List Registration) :
    registerAll e (r :: rs) = registerAll (r.apply e) rs := rfl

theorem registerAll_append (e : Engine) (rs rs' : List Registration) :
    registerAll e (rs ++ rs') = registerAll (registerAll e rs) rs' := by
  simp [registerAll, List.foldl_append]

theorem lookup_apply_self (e : Engine) (r : Registration) :
    (r.apply e).Route.lookup r.key = some r.handler := by
  rw [apply_Route]; exact Finmap.lookup_insert _

theorem lookup_apply_of_ne (e : Engine) (r : Registration) {k : String} (h : k ≠ r.key) :
    (r.apply e).Route.lookup k = e.Route.lookup k := by
  rw [apply_Route]; exact Finmap.lookup_insert_of_ne _ h

theorem lookup_registerAll_of_ne (rs : List Registration) (e : Engine) (k : String)
    (h : ∀ r ∈ rs, r.key ≠ k) : (registerAll e rs).Route.lookup k = e.Route.lookup k := by
  induction rs generalizing e with
  | nil => rfl
  | cons r rs ih =>
    rw [registerAll_cons, ih _ (fun r' hr' => h r' (List.mem_cons_of_mem _ hr'))]
    exact lookup_apply_of_ne e r (h r (List.mem_cons_self _ _)).symm

theorem lookup_registerAll_last (pre post : List Registration) (r : Registration) (e : Engine)
    (h : ∀ r' ∈ post, r'.key ≠ r.key) :
    (registerAll e (pre ++ r :: post)).Route.lookup r.key = some r.handler := by
  rw [registerAll_append, registerAll_cons, lookup_registerAll_of_ne post _ _ h]
  exact lookup_apply_self _ r

theorem mem_registerAll (rs : List Registration) (e : Engine) (k : String) :
    k ∈ (registerAll e rs).Route ↔ k ∈ e.Route ∨ ∃ r ∈ rs, r.key = k := by
  induction rs generalizing e with
  | nil => simp [registerAll_nil]
  | cons r rs ih =>
    rw [registerAll_cons, ih, apply_Route, Finmap.mem_insert]
    constructor
    · rintro ((h | h) | ⟨r', hr', h⟩)
      · exact Or.inr ⟨r, List.mem_cons_self _ _, h.symm⟩
      · exact Or.inl h
      · exact Or.inr ⟨r', List.mem_cons_of_mem _ hr', h⟩
    · rintro (h | ⟨r', hr', h⟩)
      · exact Or.inl (Or.inr h)
      · rcases List.mem_cons.mp hr' with rfl | hr'
        · exact Or.inl (Or.inl h.symm)
        · exact Or.inr ⟨r', hr', h⟩

theorem GET_Route (e : Engine) (p : String) (h : HandlerFunc) :
    (e.GET p h).Route = e.Route.insert ("GET" ++ "-" ++ p) h := rfl

theorem POST_Route (e : Engine) (p : String) (h : HandlerFunc) :
    (e.POST p h).Route = e.Route.insert ("POST" ++ "-" ++ p) h := rfl

theorem Engine_ext {e e' : Engine} (h : e.Route = e'.Route) : e = e' := by
  cases e; cases e'; simp only [Engine.mk.injEq]; exact h

theorem count_key_eq_one (f : Finmap (fun _ : String => HandlerFunc)) (k : String)
    (h : k ∈ f) : Multiset.count k f.entries.keys = 1 :=
  Multiset.count_eq_one_of_mem (Multiset.nodup_keys.mpr f.nodupKeys) (Finmap.mem_def.mp h)

/-- Every list with an element satisfying `P` splits at the last such element. -/
theorem exists_last_split (P : Registration → Prop) (rs : List Registration)
    (h : ∃ r ∈ rs, P r) :
    ∃ pre r post, rs = pre ++ r :: post ∧ P r ∧ ∀ r' ∈ post, ¬ P r' := by
  induction rs with
  | nil => simp at h
  | cons a t ih =>
    by_cases ht : ∃ r ∈ t, P r
    · obtain ⟨pre, r, post, e, hr, hpost⟩ := ih ht
      exact ⟨a :: pre, r, post, by rw [e]; rfl, hr, hpost⟩
    · obtain ⟨r, hr, hP⟩ := h
      rcases List.mem_cons.mp hr with rfl | hr
      · exact ⟨[], r, t, rfl, hP, fun r' hr' hP' => ht ⟨r', hr', hP'⟩⟩
      · exact absurd ⟨r, hr, hP⟩ ht

/-! ## Dispatch -/

theorem ServeHTTP_hit (urlString : URL → String) (e : Engine) (w : ResponseWriter)
    (req : Request) (h : HandlerFunc)
    (hk : e.Route.lookup (req.Method ++ "-" ++ req.URL.Path) = some h) :
    e.ServeHTTP urlString w req = ⟨e, h w req, [⟨h, w, req⟩]⟩ := by
  simp only [Engine.ServeHTTP, hk]

theorem ServeHTTP_miss (urlString : URL → String) (e : Engine) (w : ResponseWriter)
    (req : Request) (hk : e.Route.lookup (req.Method ++ "-" ++ req.URL.Path) = none) :
    e.ServeHTTP urlString w req = ⟨e, w.Write (notFoundText urlString req), []⟩ := by
  simp only [Engine.ServeHTTP, hk]

theorem ServeHTTP_engine (urlString : URL → String) (e : Engine) (w : ResponseWriter)
    (req : Request) : (e.ServeHTTP urlString w req).engine = e := by
  rcases hk : e.Route.lookup (req.Method ++ "-" ++ req.URL.Path) with _ | h
  · rw [ServeHTTP_miss urlString e w req hk]
  · rw [ServeHTTP_hit urlString e w req h hk]

theorem ServeHTTP_congr (urlString : URL → String) (e e' : Engine) (w : ResponseWriter)
    (req : Request)
    (hk : e'.Route.lookup (req.Method ++ "-" ++ req.URL.Path) =
      e.Route.lookup (req.Method ++ "-" ++ req.URL.Path)) :
    (e'.ServeHTTP urlString w req).w = (e.ServeHTTP urlString w req).w ∧
    (e'.ServeHTTP urlString w req).calls = (e.ServeHTTP urlString w req).calls := by
  rcases hl : e.Route.lookup (req.Method ++ "-" ++ req.URL.Path) with _ | h
  · rw [ServeHTTP_miss urlString e w req hl, ServeHTTP_miss urlString e' w req (hk.trans hl)]
    exact ⟨rfl, rfl⟩
  · rw [ServeHTTP_hit urlString e w req h hl, ServeHTTP_hit urlString e' w req h (hk.trans hl)]
    exact ⟨rfl, rfl⟩

theorem ServeHTTP_calls_ne_nil_iff (urlString : URL → String) (e : Engine)
    (w : ResponseWriter) (req : Request) :
    (e.ServeHTTP urlString w req).calls ≠ [] ↔ req.Method ++ "-" ++ req.URL.Path ∈ e.Route := by
  rw [← Finmap.lookup_isSome]
  rcases hl : e.Route.lookup (req.Method ++ "-" ++ req.URL.Path) with _ | h
  · rw [ServeHTTP_miss urlString e w req hl]; simp
  · rw [ServeHTTP_hit urlString e w req h hl]; simp

theorem ServeHTTP_handlers (urlString : URL → String) (e : Engine) (w : ResponseWriter)
    (req : Request) :
    (e.ServeHTTP urlString w req).calls.map Call.handler =
      (e.Route.lookup (req.Method ++ "-" ++ req.URL.Path)).toList := by
  rcases hl : e.Route.lookup (req.Method ++ "-" ++ req.URL.Path) with _ | h
  · rw [ServeHTTP_miss urlString e w req hl]; rfl
  · rw [ServeHTTP_hit urlString e w req h hl]; rfl

theorem keys_insert (f : Finmap (fun _ : String => HandlerFunc)) (k : String)
    (h : HandlerFunc) : (f.insert k h).keys = insert k f.keys := by
  ext a
  rw [Finmap.mem_keys, Finmap.mem_insert, Finset.mem_insert, Finmap.mem_keys]

theorem key_GET_literal (p : String) : "GET" ++ "-" ++ p = "GET-" ++ p := rfl

theorem key_POST_literal (p : String) : "POST" ++ "-" ++ p = "POST-" ++ p := rfl

theorem Write_status (w : ResponseWriter) (s : String) : (w.Write s).status = w.status := rfl

theorem Write_header (w : ResponseWriter) (s : String) : (w.Write s).header = w.header := rfl

theorem Write_body (w : ResponseWriter) (s : String) : (w.Write s).body = w.body ++ s := rfl

/-- A list splits in at most one way at a separator that occurs in neither
left part. -/
theorem append_sep_inj {α : Type} (c : α) :
    ∀ (a a' b b' : List α), c ∉ a → c ∉ a' → a ++ c :: b = a' ++ c :: b' → a = a' ∧ b = b' := by
  intro a
  induction a with
  | nil =>
    intro a' b b' _ ha' h
    cases a' with
    | nil => exact ⟨rfl, (List.cons.inj h).2⟩
    | cons y t =>
      exact absurd (List.mem_cons.mpr (Or.inl (List.cons.inj h).1)) ha'
  | cons x t ih =>
    intro a' b b' ha ha' h
    cases a' with
    | nil =>
      exact absurd (List.mem_cons.mpr (Or.inl (List.cons.inj h).1.symm)) ha
    | cons y t' =>
      have hxy := (List.cons.inj h).1
      have ht := ih t' b b' (fun hc => ha (List.mem_cons_of_mem _ hc))
        (fun hc => ha' (List.mem_cons_of_mem _ hc)) (List.cons.inj h).2
      exact ⟨by rw [hxy, ht.1], ht.2⟩

theorem key_sep_inj {m m' p q : String} (hm : '-' ∉ m.data) (hm' : '-' ∉ m'.data)
    (h : m ++ "-" ++ p = m' ++ "-" ++ q) : m = m' ∧ p = q := by
  have hd := congrArg String.data h
  simp only [String.data_append, List.append_assoc] at hd
  have := append_sep_inj '-' m.data m'.data p.data q.data hm hm' hd
  exact ⟨String.ext this.1, String.ext this.2⟩

theorem method_no_dash (r : Registration) : '-' ∉ r.method.data := by
  cases r
  · show '-' ∉ "GET".data
    decide
  · show '-' ∉ "POST".data
    decide

theorem mem_registerAll_New (rs : List Registration) (k : String) :
    k ∈ (registerAll New rs).Route ↔ ∃ r ∈ rs, r.key = k := by
  rw [mem_registerAll]
  constructor
  · rintro (h | h)
    · exact absurd h Finmap.not_mem_empty
    · exact h
  · exact Or.inr

/-! ## Dispatch with handlers that can reach the router -/

theorem stateful_ServeHTTP_hit {H : Type}
    (call : H → Stateful.Engine H → ResponseWriter → Request →
      Stateful.Engine H × ResponseWriter)
    (urlString : URL → String) (e : Stateful.Engine H) (w : ResponseWriter) (req : Request)
    (h : H) (hk : e.Route.lookup (req.Method ++ "-" ++ req.URL.Path) = some h) :
    e.ServeHTTP call urlString w req =
      ⟨(call h e w req).1, (call h e w req).2, [⟨h, w, req⟩]⟩ := by
  simp only [Stateful.Engine.ServeHTTP, hk]

theorem stateful_ServeHTTP_miss {H : Type}
    (call : H → Stateful.Engine H → ResponseWriter → Request →
      Stateful.Engine H × ResponseWriter)
    (urlString : URL → String) (e : Stateful.Engine H) (w : ResponseWriter) (req : Request)
    (hk : e.Route.lookup (req.Method ++ "-" ++ req.URL.Path) = none) :
    e.ServeHTTP call urlString w req = ⟨e, w.Write (notFoundText urlString req), []⟩ := by
  simp only [Stateful.Engine.ServeHTTP, hk]

theorem stateful_ServeHTTP_handlers {H : Type}
    (call : H → Stateful.Engine H → ResponseWriter → Request →
      Stateful.Engine H × ResponseWriter)
    (urlString : URL → String) (e : Stateful.Engine H) (w : ResponseWriter) (req : Request) :
    (e.ServeHTTP call urlString w req).calls.map Stateful.Call.handler =
      (e.Route.lookup (req.Method ++ "-" ++ req.URL.Path)).toList := by
  rcases hl : e.Route.lookup (req.Method ++ "-" ++ req.URL.Path) with _ | h
  · rw [stateful_ServeHTTP_miss call urlString e w req hl]; rfl
  · rw [stateful_ServeHTTP_hit call urlString e w req h hl]; rfl

/-- With handlers that only transform the sink, the dispatch of this part is
the dispatch of the first part: same table, same sink, same handlers. -/
theorem stateful_sinkOnly_agrees (urlString : URL → String) (e : Engine) (w : ResponseWriter)
    (req : Request) :
    ((Stateful.Engine.mk e.Route).ServeHTTP Stateful.sinkOnly urlString w req).engine.Route =
      (e.ServeHTTP urlString w req).engine.Route ∧
    ((Stateful.Engine.mk e.Route).ServeHTTP Stateful.sinkOnly urlString w req).w =
      (e.ServeHTTP urlString w req).w ∧
    ((Stateful.Engine.mk e.Route).ServeHTTP Stateful.sinkOnly urlString w req).calls.map
        Stateful.Call.handler =
      (e.ServeHTTP urlString w req).calls.map Call.handler := by
  rcases hl : e.Route.lookup (req.Method ++ "-" ++ req.URL.Path) with _ | h
  · rw [ServeHTTP_miss urlString e w req hl,
      stateful_ServeHTTP_miss Stateful.sinkOnly urlString ⟨e.Route⟩ w req hl]
    exact ⟨rfl, rfl, rfl⟩
  · rw [ServeHTTP_hit urlString e w req h hl,
      stateful_ServeHTTP_hit Stateful.sinkOnly urlString ⟨e.Route⟩ w req h hl]
    exact ⟨rfl, rfl, rfl⟩

/-! ## Claims -/

/-- C1: on a router built from `New()` by any finite sequence of GET/POST
registrations, a request whose `Method` and `URL.Path` are a registered pair is
answered by exactly one handler invocation, with the caller's sink and
request: the handler of the last registration of that pair.  The sink the run
leaves behind is the one the handler returned, the router adds nothing to it;
so a handler that writes `hello` gives the body `hello`. -/
theorem C1_dispatch_invokes_last_registered (urlString : URL → String)
    (rs : List Registration) (m p : String)
    (hreg : ∃ r ∈ rs, r.method = m ∧ r.pattern = p) :
    (∃ pre r post, rs = pre ++ r :: post ∧ (r.method = m ∧ r.pattern = p) ∧
      (∀ r' ∈ post, ¬ (r'.method = m ∧ r'.pattern = p)) ∧
      ∀ (w : ResponseWriter) (req : Request), req.Method = m → req.URL.Path = p →
        (registerAll New rs).ServeHTTP urlString w req =
          ⟨registerAll New rs, r.handler w req, [⟨r.handler, w, req⟩]⟩) ∧
    ((registerAll New [Registration.GET "/hello" (writeText "hello")]).ServeHTTP urlString
        emptyWriter (plainRequest "GET" "/hello")).w.body = "hello" := by
  refine ⟨?_, rfl⟩
  obtain ⟨pre, r, post, hsplit, hr, hpost⟩ :=
    exists_last_split (fun r => r.method = m ∧ r.pattern = p) rs hreg
  refine ⟨pre, r, post, hsplit, hr, hpost, ?_⟩
  intro w req hm hp
  apply ServeHTTP_hit
  have hkey : req.Method ++ "-" ++ req.URL.Path = r.key := by
    rw [hm, hp, Registration.key, hr.1, hr.2]
  rw [hkey, hsplit]
  apply lookup_registerAll_last
  intro r' hr' hk
  have := (key_eq_iff r' r).mp hk
  exact hpost r' hr' ⟨this.1.trans hr.1, this.2.trans hr.2⟩

/-- Witness for C1: `GET /x` registered twice, then `POST /x`; the request
`GET /x` has a registered pair. -/
theorem C1_dispatch_invokes_last_registered_witness :
    (∃ r ∈ [Registration.GET "/x" (writeText "A"), Registration.GET "/x" (writeText "B"),
        Registration.POST "/x" (writeText "C")], r.method = "GET" ∧ r.pattern = "/x") ∧
    ((∃ pre r post,
      [Registration.GET "/x" (writeText "A"), Registration.GET "/x" (writeText "B"),
        Registration.POST "/x" (writeText "C")] = pre ++ r :: post ∧
      (r.method = "GET" ∧ r.pattern = "/x") ∧
      (∀ r' ∈ post, ¬ (r'.method = "GET" ∧ r'.pattern = "/x")) ∧
      ∀ (w : ResponseWriter) (req : Request), req.Method = "GET" → req.URL.Path = "/x" →
        (registerAll New [Registration.GET "/x" (writeText "A"),
            Registration.GET "/x" (writeText "B"),
            Registration.POST "/x" (writeText "C")]).ServeHTTP pathAndQuery w req =
          ⟨registerAll New [Registration.GET "/x" (writeText "A"),
            Registration.GET "/x" (writeText "B"), Registration.POST "/x" (writeText "C")],
            r.handler w req, [⟨r.handler, w, req⟩]⟩) ∧
    ((registerAll New [Registration.GET "/hello" (writeText "hello")]).ServeHTTP pathAndQuery
        emptyWriter (plainRequest "GET" "/hello")).w.body = "hello") :=
  ⟨⟨Registration.GET "/x" (writeText "A"), by simp, rfl, rfl⟩,
    C1_dispatch_invokes_last_registered pathAndQuery _ "GET" "/x"
      ⟨Registration.GET "/x" (writeText "A"), by simp, rfl, rfl⟩⟩

/-- C2, as stated, fails: the router holds the single registration
`GET` of the pattern `a-` ++ `/b`, the request has method `GET-a` and path
`/b`.  No registered (method, path) pair equals the request's pair, yet both
give the same key, so the handler is invoked and no fallback text is written. -/
theorem C2_counterexample :
    (∀ r ∈ [Registration.GET "a-/b" (writeText "hit")],
      ¬ (r.method = (plainRequest "GET-a" "/b").Method ∧
         r.pattern = (plainRequest "GET-a" "/b").URL.Path)) ∧
    ((registerAll New [Registration.GET "a-/b" (writeText "hit")]).ServeHTTP pathAndQuery
        emptyWriter (plainRequest "GET-a" "/b")).calls.length = 1 ∧
    ((registerAll New [Registration.GET "a-/b" (writeText "hit")]).ServeHTTP pathAndQuery
        emptyWriter (plainRequest "GET-a" "/b")).w.body = "hit" ∧
    ((registerAll New [Registration.GET "a-/b" (writeText "hit")]).ServeHTTP pathAndQuery
        emptyWriter (plainRequest "GET-a" "/b")).w.body ≠
      "404 NOT FOUND: " ++ pathAndQuery (plainRequest "GET-a" "/b").URL ++ "\n" := by
  refine ⟨?_, rfl, rfl, by decide⟩
  intro r hr
  rw [List.mem_singleton] at hr
  subst hr
  simp [Registration.method, plainRequest]

/-- C2, amended: on a router built from `New()` by any finite sequence of
GET/POST registrations, a request whose route key `Method + "-" + URL.Path`
differs from the key `method + "-" + path` of every registration gets exactly
the text `404 NOT FOUND: `, the request URL and a newline written to the sink,
and no handler is invoked. -/
theorem C2_unregistered_key_gets_fallback (urlString : URL → String)
    (rs : List Registration) (w : ResponseWriter) (req : Request)
    (hmiss : ∀ r ∈ rs, r.method ++ "-" ++ r.pattern ≠ req.Method ++ "-" ++ req.URL.Path) :
    (registerAll New rs).ServeHTTP urlString w req =
      ⟨registerAll New rs, w.Write ("404 NOT FOUND: " ++ urlString req.URL ++ "\n"), []⟩ := by
  apply ServeHTTP_miss
  rw [lookup_registerAll_of_ne rs New _ hmiss]
  exact Finmap.lookup_empty _

/-- Witness for C2 (amended): `GET /hello` and `POST /login` are registered,
the request is `GET /login`. -/
theorem C2_unregistered_key_gets_fallback_witness :
    (∀ r ∈ [Registration.GET "/hello" (writeText "hello"),
        Registration.POST "/login" (writeText "logged in")],
      r.method ++ "-" ++ r.pattern ≠
        (plainRequest "GET" "/login").Method ++ "-" ++ (plainRequest "GET" "/login").URL.Path) ∧
    (registerAll New [Registration.GET "/hello" (writeText "hello"),
        Registration.POST "/login" (writeText "logged in")]).ServeHTTP pathAndQuery emptyWriter
        (plainRequest "GET" "/login") =
      ⟨registerAll New [Registration.GET "/hello" (writeText "hello"),
        Registration.POST "/login" (writeText "logged in")],
        emptyWriter.Write ("404 NOT FOUND: " ++ pathAndQuery (plainRequest "GET" "/login").URL
          ++ "\n"), []⟩ :=
  ⟨by simp [Registration.method, Registration.pattern, plainRequest],
    C2_unregistered_key_gets_fallback pathAndQuery _ emptyWriter (plainRequest "GET" "/login")
      (by simp [Registration.method, Registration.pattern, plainRequest])⟩

/-- C3: registration is last-write-wins and absorbing.  For every router, every
pattern `p` and all handlers `A`, `B`: registering `p` with `A` and then with
`B` under the same method gives the same route table as registering `p` with
`B` alone; the table holds exactly one entry for that key; a later request of
that method and path invokes `B` and nothing else.  Registration is a total
function, the duplicate raises no error. -/
theorem C3_registration_last_write_wins (urlString : URL → String) (e : Engine) (p : String)
    (A B : HandlerFunc) :
    (e.GET p A).GET p B = e.GET p B ∧
    (e.POST p A).POST p B = e.POST p B ∧
    Multiset.count ("GET" ++ "-" ++ p) ((e.GET p A).GET p B).Route.entries.keys = 1 ∧
    Multiset.count ("POST" ++ "-" ++ p) ((e.POST p A).POST p B).Route.entries.keys = 1 ∧
    (∀ (w : ResponseWriter) (req : Request), req.Method = "GET" → req.URL.Path = p →
      ((e.GET p A).GET p B).ServeHTTP urlString w req =
        ⟨(e.GET p A).GET p B, B w req, [⟨B, w, req⟩]⟩) ∧
    (∀ (w : ResponseWriter) (req : Request), req.Method = "POST" → req.URL.Path = p →
      ((e.POST p A).POST p B).ServeHTTP urlString w req =
        ⟨(e.POST p A).POST p B, B w req, [⟨B, w, req⟩]⟩) := by
  refine ⟨?_, ?_, ?_, ?_, ?_, ?_⟩
  · apply Engine_ext
    simp only [GET_Route, Finmap.insert_insert]
  · apply Engine_ext
    simp only [POST_Route, Finmap.insert_insert]
  · apply count_key_eq_one
    rw [GET_Route]
    exact Finmap.mem_insert.mpr (Or.inl rfl)
  · apply count_key_eq_one
    rw [POST_Route]
    exact Finmap.mem_insert.mpr (Or.inl rfl)
  · intro w req hm hp
    apply ServeHTTP_hit
    rw [hm, hp, GET_Route]
    exact Finmap.lookup_insert _
  · intro w req hm hp
    apply ServeHTTP_hit
    rw [hm, hp, POST_Route]
    exact Finmap.lookup_insert _

/-- Witness for C3: `GET /x` with handler A, then `GET /x` with handler B, on
the fresh router; the dispatched requests are `GET /x` and `POST /x`. -/
theorem C3_registration_last_write_wins_witness :
    (plainRequest "GET" "/x").Method = "GET" ∧ (plainRequest "GET" "/x").URL.Path = "/x" ∧
    (plainRequest "POST" "/x").Method = "POST" ∧ (plainRequest "POST" "/x").URL.Path = "/x" ∧
    ((New.GET "/x" (writeText "A")).GET "/x" (writeText "B")).ServeHTTP pathAndQuery
        emptyWriter (plainRequest "GET" "/x") =
      ⟨(New.GET "/x" (writeText "A")).GET "/x" (writeText "B"),
        writeText "B" emptyWriter (plainRequest "GET" "/x"),
        [⟨writeText "B", emptyWriter, plainRequest "GET" "/x"⟩]⟩ ∧
    ((New.POST "/x" (writeText "A")).POST "/x" (writeText "B")).ServeHTTP pathAndQuery
        emptyWriter (plainRequest "POST" "/x") =
      ⟨(New.POST "/x" (writeText "A")).POST "/x" (writeText "B"),
        writeText "B" emptyWriter (plainRequest "POST" "/x"),
        [⟨writeText "B", emptyWriter, plainRequest "POST" "/x"⟩]⟩ :=
  ⟨rfl, rfl, rfl, rfl,
    (C3_registration_last_write_wins pathAndQuery New "/x" (writeText "A")
      (writeText "B")).2.2.2.2.1 emptyWriter (plainRequest "GET" "/x") rfl rfl,
    (C3_registration_last_write_wins pathAndQuery New "/x" (writeText "A")
      (writeText "B")).2.2.2.2.2 emptyWriter (plainRequest "POST" "/x") rfl rfl⟩

/-- C4: path matching is exact and case-sensitive, nothing is normalised.  On
the router `New()` followed by the single registration `GET(q, h)`, a request
with method `GET` and a path `p` different from `q` invokes no handler and gets
the fallback text; so does a request with method `get` and path `q`.  Paths
that differ only in letter case or by a trailing slash are different strings. -/
theorem C4_exact_case_sensitive_match (urlString : URL → String) (p q : String)
    (h : HandlerFunc) (w : ResponseWriter) (req : Request) :
    (p ≠ q → req.Method = "GET" → req.URL.Path = p →
      (New.GET q h).ServeHTTP urlString w req =
        ⟨New.GET q h, w.Write ("404 NOT FOUND: " ++ urlString req.URL ++ "\n"), []⟩) ∧
    (req.Method = "get" → req.URL.Path = q →
      (New.GET q h).ServeHTTP urlString w req =
        ⟨New.GET q h, w.Write ("404 NOT FOUND: " ++ urlString req.URL ++ "\n"), []⟩) ∧
    ("/Hello" ≠ "/hello" ∧ "/hello/" ≠ "/hello") := by
  refine ⟨?_, ?_, by decide, by decide⟩
  · intro hpq hm hp
    apply ServeHTTP_miss
    rw [hm, hp, GET_Route, Finmap.lookup_insert_of_ne _ (fun hk => hpq (key_GET_inj hk))]
    exact Finmap.lookup_empty _
  · intro hm hp
    apply ServeHTTP_miss
    rw [hm, hp, GET_Route, Finmap.lookup_insert_of_ne _ (key_lower_ne_GET q q)]
    exact Finmap.lookup_empty _

/-- Witness for C4: `GET /hello` is registered; the requests are `GET /Hello`,
`GET /hello/` and `get /hello`. -/
theorem C4_exact_case_sensitive_match_witness :
    ("/Hello" ≠ "/hello" ∧ (plainRequest "GET" "/Hello").Method = "GET" ∧
      (plainRequest "GET" "/Hello").URL.Path = "/Hello") ∧
    ((plainRequest "get" "/hello").Method = "get" ∧
      (plainRequest "get" "/hello").URL.Path = "/hello") ∧
    (New.GET "/hello" (writeText "hello")).ServeHTTP pathAndQuery emptyWriter
        (plainRequest "GET" "/Hello") =
      ⟨New.GET "/hello" (writeText "hello"),
        emptyWriter.Write ("404 NOT FOUND: " ++ pathAndQuery (plainRequest "GET" "/Hello").URL
          ++ "\n"), []⟩ ∧
    (New.GET "/hello" (writeText "hello")).ServeHTTP pathAndQuery emptyWriter
        (plainRequest "GET" "/hello/") =
      ⟨New.GET "/hello" (writeText "hello"),
        emptyWriter.Write ("404 NOT FOUND: " ++ pathAndQuery (plainRequest "GET" "/hello/").URL
          ++ "\n"), []⟩ ∧
    (New.GET "/hello" (writeText "hello")).ServeHTTP pathAndQuery emptyWriter
        (plainRequest "get" "/hello") =
      ⟨New.GET "/hello" (writeText "hello"),
        emptyWriter.Write ("404 NOT FOUND: " ++ pathAndQuery (plainRequest "get" "/hello").URL
          ++ "\n"), []⟩ :=
  ⟨⟨by decide, rfl, rfl⟩, ⟨rfl, rfl⟩,
    (C4_exact_case_sensitive_match pathAndQuery "/Hello" "/hello" (writeText "hello")
      emptyWriter (plainRequest "GET" "/Hello")).1 (by decide) rfl rfl,
    (C4_exact_case_sensitive_match pathAndQuery "/hello/" "/hello" (writeText "hello")
      emptyWriter (plainRequest "GET" "/hello/")).1 (by decide) rfl rfl,
    (C4_exact_case_sensitive_match pathAndQuery "/hello/" "/hello" (writeText "hello")
      emptyWriter (plainRequest "get" "/hello")).2.1 rfl rfl⟩

/-- C5: routes of different methods are independent.  For every router, pattern
and handler, registering `POST(p, h)` changes neither the sink nor the call
log that `ServeHTTP` produces for a request with method `GET`, and registering
`GET(p, h)` changes neither for a request with method `POST`.  On the router
whose only registration is `POST /login`, a `GET` request for `/login` gets the
fallback body `404 NOT FOUND: /login` plus newline and no handler is invoked. -/
theorem C5_methods_independent (urlString : URL → String) (e : Engine) (p : String)
    (h : HandlerFunc) (w : ResponseWriter) (req : Request) :
    (req.Method = "GET" →
      ((e.POST p h).ServeHTTP urlString w req).w = (e.ServeHTTP urlString w req).w ∧
      ((e.POST p h).ServeHTTP urlString w req).calls = (e.ServeHTTP urlString w req).calls) ∧
    (req.Method = "POST" →
      ((e.GET p h).ServeHTTP urlString w req).w = (e.ServeHTTP urlString w req).w ∧
      ((e.GET p h).ServeHTTP urlString w req).calls = (e.ServeHTTP urlString w req).calls) ∧
    (req.Method = "GET" → req.URL.Path = "/login" → urlString req.URL = "/login" →
      (New.POST "/login" h).ServeHTTP urlString w req =
        ⟨New.POST "/login" h, w.Write "404 NOT FOUND: /login\n", []⟩) := by
  refine ⟨?_, ?_, ?_⟩
  · intro hm
    apply ServeHTTP_congr
    rw [hm, POST_Route]
    exact Finmap.lookup_insert_of_ne _ (key_GET_ne_POST _ _)
  · intro hm
    apply ServeHTTP_congr
    rw [hm, GET_Route]
    exact Finmap.lookup_insert_of_ne _ (key_GET_ne_POST _ _).symm
  · intro hm hp hu
    have hmiss : (New.POST "/login" h).Route.lookup (req.Method ++ "-" ++ req.URL.Path)
        = none := by
      rw [hm, POST_Route, Finmap.lookup_insert_of_ne _ (key_GET_ne_POST _ _)]
      exact Finmap.lookup_empty _
    rw [ServeHTTP_miss urlString _ w req hmiss, notFoundText, hu]
    rfl

/-- Witness for C5: `GET /hello` is registered, then `POST /login`; the requests
are `GET /login` and `POST /hello`. -/
theorem C5_methods_independent_witness :
    ((plainRequest "GET" "/login").Method = "GET" ∧
      (plainRequest "GET" "/login").URL.Path = "/login" ∧
      pathAndQuery (plainRequest "GET" "/login").URL = "/login") ∧
    (plainRequest "POST" "/hello").Method = "POST" ∧
    (((New.GET "/hello" (writeText "hello")).POST "/login" (writeText "logged in")).ServeHTTP
        pathAndQuery emptyWriter (plainRequest "GET" "/login")).w =
      ((New.GET "/hello" (writeText "hello")).ServeHTTP pathAndQuery emptyWriter
        (plainRequest "GET" "/login")).w ∧
    (((New.POST "/hello" (writeText "posted")).GET "/hello" (writeText "hello")).ServeHTTP
        pathAndQuery emptyWriter (plainRequest "POST" "/hello")).calls =
      ((New.POST "/hello" (writeText "posted")).ServeHTTP pathAndQuery emptyWriter
        (plainRequest "POST" "/hello")).calls ∧
    (New.POST "/login" (writeText "logged in")).ServeHTTP pathAndQuery emptyWriter
        (plainRequest "GET" "/login") =
      ⟨New.POST "/login" (writeText "logged in"),
        emptyWriter.Write "404 NOT FOUND: /login\n", []⟩ :=
  ⟨⟨rfl, rfl, by decide⟩, rfl,
    ((C5_methods_independent pathAndQuery (New.GET "/hello" (writeText "hello")) "/login"
      (writeText "logged in") emptyWriter (plainRequest "GET" "/login")).1 rfl).1,
    ((C5_methods_independent pathAndQuery (New.POST "/hello" (writeText "posted")) "/hello"
      (writeText "hello") emptyWriter (plainRequest "POST" "/hello")).2.1 rfl).2,
    (C5_methods_independent pathAndQuery New "/login" (writeText "logged in") emptyWriter
      (plainRequest "GET" "/login")).2.2 rfl rfl (by decide)⟩

/-- C6: `New()` returns a router whose route table is empty: it has no key.  For
every request, whatever its method and path, `ServeHTTP` on the fresh router
invokes no handler and writes `404 NOT FOUND: `, the URL and a newline; a `GET`
request whose URL reads `/anything` yields `404 NOT FOUND: /anything` plus
newline on an empty sink. -/
theorem C6_new_router_is_empty (urlString : URL → String) (w : ResponseWriter)
    (req : Request) :
    New.Route = ∅ ∧ New.Route.keys = ∅ ∧ (∀ k : String, k ∉ New.Route) ∧
    New.ServeHTTP urlString w req =
      ⟨New, w.Write ("404 NOT FOUND: " ++ urlString req.URL ++ "\n"), []⟩ ∧
    (req.Method = "GET" → req.URL.Path = "/anything" → urlString req.URL = "/anything" →
      (New.ServeHTTP urlString emptyWriter req).w.body = "404 NOT FOUND: /anything\n" ∧
      (New.ServeHTTP urlString emptyWriter req).calls = []) := by
  have hmiss : New.Route.lookup (req.Method ++ "-" ++ req.URL.Path) = none :=
    Finmap.lookup_empty _
  refine ⟨rfl, Finmap.keys_empty, fun k => Finmap.not_mem_empty, ?_, ?_⟩
  · exact ServeHTTP_miss urlString New w req hmiss
  · intro _ _ hu
    rw [ServeHTTP_miss urlString New emptyWriter req hmiss, notFoundText, hu]
    exact ⟨by decide, rfl⟩

/-- Witness for C6: the request `GET /anything` on the fresh router. -/
theorem C6_new_router_is_empty_witness :
    ((plainRequest "GET" "/anything").Method = "GET" ∧
      (plainRequest "GET" "/anything").URL.Path = "/anything" ∧
      pathAndQuery (plainRequest "GET" "/anything").URL = "/anything") ∧
    (New.ServeHTTP pathAndQuery emptyWriter (plainRequest "GET" "/anything")).w.body =
      "404 NOT FOUND: /anything\n" ∧
    (New.ServeHTTP pathAndQuery emptyWriter (plainRequest "GET" "/anything")).calls = [] :=
  ⟨⟨rfl, rfl, by decide⟩,
    (C6_new_router_is_empty pathAndQuery emptyWriter (plainRequest "GET" "/anything")).2.2.2.2
      rfl rfl (by decide)⟩

/-- C7: registration computes the key as method, `-`, pattern, with the method
fixed by the wrapper, and validates nothing.  For every router, every pattern
string `p` (the empty string included) and every handler `h`: after
`GET(p, h)` the table maps `GET-` ++ `p` to `h`, after `POST(p, h)` it maps
`POST-` ++ `p` to `h`, every other key has the entry it had before, and `GET`
and `POST` equal the generic `RegisterRoute` with the method fixed to `GET`
resp. `POST`. -/
theorem C7_registration_key_and_frame (e : Engine) (p : String) (h : HandlerFunc) :
    (e.GET p h).Route.lookup ("GET-" ++ p) = some h ∧
    (e.POST p h).Route.lookup ("POST-" ++ p) = some h ∧
    (∀ k : String, k ≠ "GET-" ++ p → (e.GET p h).Route.lookup k = e.Route.lookup k) ∧
    (∀ k : String, k ≠ "POST-" ++ p → (e.POST p h).Route.lookup k = e.Route.lookup k) ∧
    e.GET p h = RegisterRoute e "GET" p h ∧
    e.POST p h = RegisterRoute e "POST" p h ∧
    (e.GET "" h).Route.lookup "GET-" = some h ∧
    (e.POST "" h).Route.lookup "POST-" = some h := by
  refine ⟨?_, ?_, ?_, ?_, rfl, rfl, ?_, ?_⟩
  · rw [GET_Route, key_GET_literal]; exact Finmap.lookup_insert _
  · rw [POST_Route, key_POST_literal]; exact Finmap.lookup_insert _
  · intro k hk
    rw [GET_Route, key_GET_literal]; exact Finmap.lookup_insert_of_ne _ hk
  · intro k hk
    rw [POST_Route, key_POST_literal]; exact Finmap.lookup_insert_of_ne _ hk
  · rw [GET_Route]; exact Finmap.lookup_insert _
  · rw [POST_Route]; exact Finmap.lookup_insert _

/-- Witness for C7: on a router that already holds `GET /hello`, the empty
pattern is registered under `GET` and under `POST`; the other key looked at is
the one of `GET /hello`. -/
theorem C7_registration_key_and_frame_witness :
    ("GET-/hello" ≠ "GET-" ++ "" ∧ "GET-/hello" ≠ "POST-" ++ "") ∧
    ((New.GET "/hello" (writeText "hello")).GET "" (writeText "root")).Route.lookup
        "GET-/hello" = (New.GET "/hello" (writeText "hello")).Route.lookup "GET-/hello" ∧
    ((New.GET "/hello" (writeText "hello")).POST "" (writeText "root")).Route.lookup
        "GET-/hello" = (New.GET "/hello" (writeText "hello")).Route.lookup "GET-/hello" :=
  ⟨⟨by decide, by decide⟩,
    (C7_registration_key_and_frame (New.GET "/hello" (writeText "hello")) ""
      (writeText "root")).2.2.1 "GET-/hello" (by decide),
    (C7_registration_key_and_frame (New.GET "/hello" (writeText "hello")) ""
      (writeText "root")).2.2.2.1 "GET-/hello" (by decide)⟩

/-- C8: on a route miss the router sets no status code and no header.  With the
sink as explicit state (status, headers, body): for every router and every
request whose key is absent from the route table, `ServeHTTP` invokes no
handler, appends the fallback text to the body and leaves status and headers
as they were; a sink on which no status was set still has none, so the
default 200 applies. -/
theorem C8_miss_leaves_status_and_headers (urlString : URL → String) (e : Engine)
    (w : ResponseWriter) (req : Request)
    (habsent : req.Method ++ "-" ++ req.URL.Path ∉ e.Route) :
    (e.ServeHTTP urlString w req).w.status = w.status ∧
    (e.ServeHTTP urlString w req).w.header = w.header ∧
    (e.ServeHTTP urlString w req).w.body =
      w.body ++ ("404 NOT FOUND: " ++ urlString req.URL ++ "\n") ∧
    (e.ServeHTTP urlString w req).calls = [] ∧
    (e.ServeHTTP urlString w req).w.statusCode = w.statusCode ∧
    (w.status = none → (e.ServeHTTP urlString w req).w.status = none ∧
      (e.ServeHTTP urlString w req).w.statusCode = 200) := by
  rw [ServeHTTP_miss urlString e w req (Finmap.lookup_eq_none.mpr habsent)]
  refine ⟨rfl, rfl, rfl, rfl, rfl, ?_⟩
  intro hs
  simp only [Write_status, ResponseWriter.statusCode, hs]
  exact ⟨trivial, rfl⟩

/-- Witness for C8: `POST /login` is registered, the request is `GET /login`, the
sink is untouched. -/
theorem C8_miss_leaves_status_and_headers_witness :
    ((plainRequest "GET" "/login").Method ++ "-" ++ (plainRequest "GET" "/login").URL.Path ∉
        (New.POST "/login" (writeText "logged in")).Route ∧ emptyWriter.status = none) ∧
    ((New.POST "/login" (writeText "logged in")).ServeHTTP pathAndQuery emptyWriter
        (plainRequest "GET" "/login")).w.status = none ∧
    ((New.POST "/login" (writeText "logged in")).ServeHTTP pathAndQuery emptyWriter
        (plainRequest "GET" "/login")).w.statusCode = 200 :=
  ⟨⟨by decide, rfl⟩,
    (C8_miss_leaves_status_and_headers pathAndQuery (New.POST "/login" (writeText "logged in"))
      emptyWriter (plainRequest "GET" "/login") (by decide)).2.2.2.2.2 rfl⟩

/-- C9: the route table only grows.  For every router and every registration
call, every key present before the call is present after it, and the new key
set is the old one plus the registered key; along any sequence of
registrations no key is removed, and a request that is matched after some
registrations from `New()` is still matched after any further ones. -/
theorem C9_route_table_only_grows (urlString : URL → String) (e : Engine) (p : String)
    (h : HandlerFunc) (rs rs' : List Registration) (w : ResponseWriter) (req : Request) :
    (∀ k : String, k ∈ e.Route → k ∈ (e.GET p h).Route ∧ k ∈ (e.POST p h).Route) ∧
    (e.GET p h).Route.keys = insert ("GET-" ++ p) e.Route.keys ∧
    (e.POST p h).Route.keys = insert ("POST-" ++ p) e.Route.keys ∧
    (∀ k : String, k ∈ e.Route → k ∈ (registerAll e rs).Route) ∧
    (∀ k : String, k ∈ (registerAll New rs).Route → k ∈ (registerAll New (rs ++ rs')).Route) ∧
    (((registerAll New rs).ServeHTTP urlString w req).calls ≠ [] →
      ((registerAll New (rs ++ rs')).ServeHTTP urlString w req).calls ≠ []) := by
  have hgrow : ∀ (e : Engine) (l : List Registration) (k : String),
      k ∈ e.Route → k ∈ (registerAll e l).Route :=
    fun e l k hk => (mem_registerAll l e k).mpr (Or.inl hk)
  refine ⟨?_, ?_, ?_, hgrow e rs, ?_, ?_⟩
  · intro k hk
    exact ⟨by rw [GET_Route]; exact Finmap.mem_insert.mpr (Or.inr hk),
      by rw [POST_Route]; exact Finmap.mem_insert.mpr (Or.inr hk)⟩
  · rw [GET_Route, key_GET_literal]; exact keys_insert _ _ _
  · rw [POST_Route, key_POST_literal]; exact keys_insert _ _ _
  · intro k hk
    rw [registerAll_append]
    exact hgrow _ rs' k hk
  · intro hcalls
    rw [ServeHTTP_calls_ne_nil_iff] at hcalls ⊢
    rw [registerAll_append]
    exact hgrow _ rs' _ hcalls

/-- Witness for C9: `GET /hello` is registered, then `POST /login` and `GET /x`;
the request `GET /hello` is matched before and after. -/
theorem C9_route_table_only_grows_witness :
    "GET-/hello" ∈ (New.GET "/hello" (writeText "hello")).Route ∧
    ((registerAll New [Registration.GET "/hello" (writeText "hello")]).ServeHTTP pathAndQuery
        emptyWriter (plainRequest "GET" "/hello")).calls ≠ [] ∧
    "GET-/hello" ∈ ((New.GET "/hello" (writeText "hello")).POST "/login"
        (writeText "logged in")).Route ∧
    ((registerAll New ([Registration.GET "/hello" (writeText "hello")] ++
        [Registration.POST "/login" (writeText "logged in"),
          Registration.GET "/x" (writeText "x")])).ServeHTTP pathAndQuery
        emptyWriter (plainRequest "GET" "/hello")).calls ≠ [] :=
  ⟨by decide, by simp [registerAll, Registration.apply, Engine.ServeHTTP, Engine.GET,
      plainRequest, New],
    ((C9_route_table_only_grows pathAndQuery (New.GET "/hello" (writeText "hello")) "/login"
      (writeText "logged in") [] [] emptyWriter (plainRequest "GET" "/hello")).1 "GET-/hello"
      (by decide)).2,
    (C9_route_table_only_grows pathAndQuery New "" (writeText "")
      [Registration.GET "/hello" (writeText "hello")]
      [Registration.POST "/login" (writeText "logged in"), Registration.GET "/x" (writeText "x")]
      emptyWriter (plainRequest "GET" "/hello")).2.2.2.2.2
      (by simp [registerAll, Registration.apply, Engine.ServeHTTP, Engine.GET,
        plainRequest, New])⟩

/-- C10, as stated, fails on the match branch.  The router is `New()` with one
registration, `GET /grow`, whose handler is a closure over the router that
calls `POST` for the pattern `/new`.  Before the request `GET /grow` the table
has no key for `POST` and `/new`, after `ServeHTTP` it has one.  And on the
router `New()` with `GET /once` registered to a closure that calls `GET` for
`/once` again, the first dispatch of `GET /once` invokes the closure and the
second, against the same router, invokes the handler the first one stored. -/
theorem C10_counterexample :
    "POST" ++ "-" ++ "/new" ∉
      ((Stateful.New Stateful.Closure).GET "/grow" (.callsPOST "/new" "new")).Route ∧
    "POST" ++ "-" ++ "/new" ∈
      (((Stateful.New Stateful.Closure).GET "/grow" (.callsPOST "/new" "new")).ServeHTTP
        Stateful.Closure.call pathAndQuery emptyWriter (plainRequest "GET" "/grow")).engine.Route ∧
    (((Stateful.New Stateful.Closure).GET "/grow" (.callsPOST "/new" "new")).ServeHTTP
        Stateful.Closure.call pathAndQuery emptyWriter (plainRequest "GET" "/grow")).engine.Route ≠
      ((Stateful.New Stateful.Closure).GET "/grow" (.callsPOST "/new" "new")).Route ∧
    (((Stateful.New Stateful.Closure).GET "/once" (.callsGET "/once" "later")).ServeHTTP
        Stateful.Closure.call pathAndQuery emptyWriter
        (plainRequest "GET" "/once")).calls.map Stateful.Call.handler =
      [Stateful.Closure.callsGET "/once" "later"] ∧
    ((((Stateful.New Stateful.Closure).GET "/once" (.callsGET "/once" "later")).ServeHTTP
        Stateful.Closure.call pathAndQuery emptyWriter
        (plainRequest "GET" "/once")).engine.ServeHTTP
        Stateful.Closure.call pathAndQuery emptyWriter
        (plainRequest "GET" "/once")).calls.map Stateful.Call.handler =
      [Stateful.Closure.writes "later"] := by
  refine ⟨by decide, by decide, ?_, by decide, by decide⟩
  intro h
  have hin : "POST" ++ "-" ++ "/new" ∈
      (((Stateful.New Stateful.Closure).GET "/grow" (.callsPOST "/new" "new")).ServeHTTP
        Stateful.Closure.call pathAndQuery emptyWriter
        (plainRequest "GET" "/grow")).engine.Route := by decide
  rw [h] at hin
  exact absurd hin (by decide)

/-- C10, amended: dispatch is a single lookup and makes no write of its own to
the route table.  For every router, every way of running func values and every
request: on the miss branch `ServeHTTP` leaves the router exactly as it was; on
the match branch the router and the sink after `ServeHTTP` are exactly the ones
the invoked handler left, and that handler was invoked once; so whenever the
invoked handler does not change the router, `ServeHTTP` leaves the route table
exactly as it was, and dispatching the same request again against the same
router selects the same handler or the same fallback.  Handlers that only
transform the sink never change it. -/
theorem C10_dispatch_writes_no_table_entry {H : Type}
    (call : H → Stateful.Engine H → ResponseWriter → Request →
      Stateful.Engine H × ResponseWriter)
    (urlString : URL → String) (e : Stateful.Engine H) (w w' : ResponseWriter)
    (req : Request) :
    (e.Route.lookup (req.Method ++ "-" ++ req.URL.Path) = none →
      e.ServeHTTP call urlString w req =
        ⟨e, w.Write ("404 NOT FOUND: " ++ urlString req.URL ++ "\n"), []⟩) ∧
    (∀ h : H, e.Route.lookup (req.Method ++ "-" ++ req.URL.Path) = some h →
      (e.ServeHTTP call urlString w req).engine = (call h e w req).1 ∧
      (e.ServeHTTP call urlString w req).w = (call h e w req).2 ∧
      (e.ServeHTTP call urlString w req).calls = [⟨h, w, req⟩]) ∧
    ((∀ h : H, e.Route.lookup (req.Method ++ "-" ++ req.URL.Path) = some h →
        (call h e w req).1 = e) →
      (e.ServeHTTP call urlString w req).engine = e ∧
      (e.ServeHTTP call urlString w req).engine.Route = e.Route ∧
      (e.ServeHTTP call urlString w req).engine.ServeHTTP call urlString w' req =
        e.ServeHTTP call urlString w' req ∧
      ((e.ServeHTTP call urlString w req).engine.ServeHTTP call urlString w' req).calls.map
          Stateful.Call.handler =
        (e.ServeHTTP call urlString w req).calls.map Stateful.Call.handler) ∧
    (∀ e0 : Stateful.Engine HandlerFunc,
      (e0.ServeHTTP Stateful.sinkOnly urlString w req).engine = e0) := by
  refine ⟨?_, ?_, ?_, ?_⟩
  · exact stateful_ServeHTTP_miss call urlString e w req
  · intro h hk
    rw [stateful_ServeHTTP_hit call urlString e w req h hk]
    exact ⟨rfl, rfl, rfl⟩
  · intro hkeep
    have he : (e.ServeHTTP call urlString w req).engine = e := by
      rcases hl : e.Route.lookup (req.Method ++ "-" ++ req.URL.Path) with _ | h
      · rw [stateful_ServeHTTP_miss call urlString e w req hl]
      · rw [stateful_ServeHTTP_hit call urlString e w req h hl]
        exact hkeep h hl
    refine ⟨he, by rw [he], by rw [he], ?_⟩
    rw [he, stateful_ServeHTTP_handlers, stateful_ServeHTTP_handlers]
  · intro e0
    rcases hl : e0.Route.lookup (req.Method ++ "-" ++ req.URL.Path) with _ | h
    · rw [stateful_ServeHTTP_miss Stateful.sinkOnly urlString e0 w req hl]
    · rw [stateful_ServeHTTP_hit Stateful.sinkOnly urlString e0 w req h hl]
      rfl

/-- Witness for C10 (amended): `GET /hello` is registered with a handler that
writes a text and `GET /grow` with a closure that calls `POST`.  The request
`GET /nope` takes the miss branch, `GET /hello` the match branch with a handler
that leaves the router alone, `GET /grow` the match branch with one that does
not. -/
theorem C10_dispatch_writes_no_table_entry_witness :
    (((Stateful.New Stateful.Closure).GET "/hello" (.writes "hello")).GET "/grow"
        (.callsPOST "/new" "new")).Route.lookup
        ((plainRequest "GET" "/nope").Method ++ "-" ++ (plainRequest "GET" "/nope").URL.Path)
      = none ∧
    (((Stateful.New Stateful.Closure).GET "/hello" (.writes "hello")).GET "/grow"
        (.callsPOST "/new" "new")).Route.lookup
        ((plainRequest "GET" "/grow").Method ++ "-" ++ (plainRequest "GET" "/grow").URL.Path)
      = some (Stateful.Closure.callsPOST "/new" "new") ∧
    (((Stateful.New Stateful.Closure).GET "/hello" (.writes "hello")).GET "/grow"
        (.callsPOST "/new" "new")).ServeHTTP Stateful.Closure.call pathAndQuery emptyWriter
        (plainRequest "GET" "/nope") =
      ⟨((Stateful.New Stateful.Closure).GET "/hello" (.writes "hello")).GET "/grow"
        (.callsPOST "/new" "new"),
        emptyWriter.Write ("404 NOT FOUND: " ++ pathAndQuery (plainRequest "GET" "/nope").URL
          ++ "\n"), []⟩ ∧
    ((((Stateful.New Stateful.Closure).GET "/hello" (.writes "hello")).GET "/grow"
        (.callsPOST "/new" "new")).ServeHTTP Stateful.Closure.call pathAndQuery emptyWriter
        (plainRequest "GET" "/grow")).engine =
      (((Stateful.New Stateful.Closure).GET "/hello" (.writes "hello")).GET "/grow"
        (.callsPOST "/new" "new")).POST "/new" (.writes "new") ∧
    ((((Stateful.New Stateful.Closure).GET "/hello" (.writes "hello")).GET "/grow"
        (.callsPOST "/new" "new")).ServeHTTP Stateful.Closure.call pathAndQuery emptyWriter
        (plainRequest "GET" "/hello")).engine =
      ((Stateful.New Stateful.Closure).GET "/hello" (.writes "hello")).GET "/grow"
        (.callsPOST "/new" "new") :=
  ⟨by decide, by decide,
    (C10_dispatch_writes_no_table_entry Stateful.Closure.call pathAndQuery
      (((Stateful.New Stateful.Closure).GET "/hello" (.writes "hello")).GET "/grow"
        (.callsPOST "/new" "new")) emptyWriter emptyWriter (plainRequest "GET" "/nope")).1
      (by decide),
    ((C10_dispatch_writes_no_table_entry Stateful.Closure.call pathAndQuery
      (((Stateful.New Stateful.Closure).GET "/hello" (.writes "hello")).GET "/grow"
        (.callsPOST "/new" "new")) emptyWriter emptyWriter (plainRequest "GET" "/grow")).2.1
      (.callsPOST "/new" "new") (by decide)).1,
    ((C10_dispatch_writes_no_table_entry Stateful.Closure.call pathAndQuery
      (((Stateful.New Stateful.Closure).GET "/hello" (.writes "hello")).GET "/grow"
        (.callsPOST "/new" "new")) emptyWriter emptyWriter (plainRequest "GET" "/hello")).2.2.1
      (fun h hh => by
        have h0 : (((Stateful.New Stateful.Closure).GET "/hello" (.writes "hello")).GET "/grow"
            (.callsPOST "/new" "new")).Route.lookup
            ((plainRequest "GET" "/hello").Method ++ "-" ++
              (plainRequest "GET" "/hello").URL.Path) = some (Stateful.Closure.writes "hello") := by
          decide
        have hh' : h = Stateful.Closure.writes "hello" :=
          Option.some.inj (hh.symm.trans h0)
        subst hh'
        rfl)).1⟩

/-- C11: the route key separates method from path unambiguously when the
request method contains no `-`.  For all strings `m`, `p`, `q` with no `-` in
`m`, the key `m` ++ `-` ++ `p` equals `GET-` ++ `q` only if `m` is `GET` and
`p` is `q`, and likewise for `POST`.  So on every router built from `New()` by
GET/POST registrations, a request whose `Method` contains no `-` has a handler
invoked if and only if its exact (`Method`, `URL.Path`) pair was registered,
and gets the fallback otherwise. -/
theorem C11_key_unambiguous_without_dash (urlString : URL → String)
    (rs : List Registration) (m p q : String) (w : ResponseWriter) (req : Request) :
    ('-' ∉ m.data → m ++ "-" ++ p = "GET-" ++ q → m = "GET" ∧ p = q) ∧
    ('-' ∉ m.data → m ++ "-" ++ p = "POST-" ++ q → m = "POST" ∧ p = q) ∧
    ('-' ∉ req.Method.data →
      (((registerAll New rs).ServeHTTP urlString w req).calls ≠ [] ↔
        ∃ r ∈ rs, r.method = req.Method ∧ r.pattern = req.URL.Path) ∧
      ((¬ ∃ r ∈ rs, r.method = req.Method ∧ r.pattern = req.URL.Path) →
        (registerAll New rs).ServeHTTP urlString w req =
          ⟨registerAll New rs, w.Write ("404 NOT FOUND: " ++ urlString req.URL ++ "\n"),
            []⟩)) := by
  refine ⟨?_, ?_, ?_⟩
  · intro hm h
    rw [← key_GET_literal] at h
    exact key_sep_inj hm (by decide) h
  · intro hm h
    rw [← key_POST_literal] at h
    exact key_sep_inj hm (by decide) h
  · intro hm
    have hkey : ∀ r : Registration, r.key = req.Method ++ "-" ++ req.URL.Path ↔
        r.method = req.Method ∧ r.pattern = req.URL.Path := by
      intro r
      constructor
      · intro h
        exact key_sep_inj (method_no_dash r) hm h
      · rintro ⟨h1, h2⟩
        rw [Registration.key, h1, h2]
    have hmem : req.Method ++ "-" ++ req.URL.Path ∈ (registerAll New rs).Route ↔
        ∃ r ∈ rs, r.method = req.Method ∧ r.pattern = req.URL.Path := by
      rw [mem_registerAll_New]
      constructor
      · rintro ⟨r, hr, h⟩
        exact ⟨r, hr, (hkey r).mp h⟩
      · rintro ⟨r, hr, h⟩
        exact ⟨r, hr, (hkey r).mpr h⟩
    refine ⟨(ServeHTTP_calls_ne_nil_iff urlString _ w req).trans hmem, ?_⟩
    intro hnot
    apply ServeHTTP_miss
    exact Finmap.lookup_eq_none.mpr (fun hin => hnot (hmem.mp hin))

/-- Witness for C11: `GET /hello` and `POST /login` are registered; the keys of
the requests `GET /hello` and `POST /hello` are taken apart, and `POST /hello`,
which was not registered, gets the fallback. -/
theorem C11_key_unambiguous_without_dash_witness :
    ('-' ∉ "GET".data ∧ "GET" ++ "-" ++ "/hello" = "GET-" ++ "/hello") ∧
    ('-' ∉ "POST".data ∧ "POST" ++ "-" ++ "/hello" = "POST-" ++ "/hello") ∧
    ('-' ∉ (plainRequest "POST" "/hello").Method.data ∧
      ¬ ∃ r ∈ [Registration.GET "/hello" (writeText "hello"),
          Registration.POST "/login" (writeText "logged in")],
        r.method = (plainRequest "POST" "/hello").Method ∧
        r.pattern = (plainRequest "POST" "/hello").URL.Path) ∧
    ("GET" = "GET" ∧ "/hello" = "/hello") ∧
    ("POST" = "POST" ∧ "/hello" = "/hello") ∧
    (registerAll New [Registration.GET "/hello" (writeText "hello"),
        Registration.POST "/login" (writeText "logged in")]).ServeHTTP pathAndQuery emptyWriter
        (plainRequest "POST" "/hello") =
      ⟨registerAll New [Registration.GET "/hello" (writeText "hello"),
        Registration.POST "/login" (writeText "logged in")],
        emptyWriter.Write ("404 NOT FOUND: " ++ pathAndQuery (plainRequest "POST" "/hello").URL
          ++ "\n"), []⟩ :=
  ⟨⟨by decide, by decide⟩, ⟨by decide, by decide⟩,
    ⟨by decide, by simp [Registration.method, Registration.pattern, plainRequest]⟩,
    (C11_key_unambiguous_without_dash pathAndQuery [] "GET" "/hello" "/hello" emptyWriter
      (plainRequest "GET" "/hello")).1 (by decide) (by decide),
    (C11_key_unambiguous_without_dash pathAndQuery [] "POST" "/hello" "/hello" emptyWriter
      (plainRequest "GET" "/hello")).2.1 (by decide) (by decide),
    ((C11_key_unambiguous_without_dash pathAndQuery
      [Registration.GET "/hello" (writeText "hello"),
        Registration.POST "/login" (writeText "logged in")] "" "" "" emptyWriter
      (plainRequest "POST" "/hello")).2.2 (by decide)).2
      (by simp [Registration.method, Registration.pattern, plainRequest])⟩

/-- C12: handler selection depends only on the request's `Method` and
`URL.Path`.  For every router and every two requests that agree on those two
fields, whatever their query strings, headers, bodies and hosts, and whatever
the sinks, `ServeHTTP` takes the same branch for both: it invokes one and the
same registered handler for both, or writes the fallback for both. -/
theorem C12_selection_depends_on_method_and_path (urlString : URL → String) (e : Engine)
    (w1 w2 : ResponseWriter) (req1 req2 : Request)
    (hm : req1.Method = req2.Method) (hp : req1.URL.Path = req2.URL.Path) :
    ((∃ h : HandlerFunc,
        e.ServeHTTP urlString w1 req1 = ⟨e, h w1 req1, [⟨h, w1, req1⟩]⟩ ∧
        e.ServeHTTP urlString w2 req2 = ⟨e, h w2 req2, [⟨h, w2, req2⟩]⟩) ∨
      (e.ServeHTTP urlString w1 req1 =
          ⟨e, w1.Write ("404 NOT FOUND: " ++ urlString req1.URL ++ "\n"), []⟩ ∧
        e.ServeHTTP urlString w2 req2 =
          ⟨e, w2.Write ("404 NOT FOUND: " ++ urlString req2.URL ++ "\n"), []⟩)) ∧
    (e.ServeHTTP urlString w1 req1).calls.map Call.handler =
      (e.ServeHTTP urlString w2 req2).calls.map Call.handler := by
  have hk : req1.Method ++ "-" ++ req1.URL.Path = req2.Method ++ "-" ++ req2.URL.Path := by
    rw [hm, hp]
  refine ⟨?_, by rw [ServeHTTP_handlers, ServeHTTP_handlers, hk]⟩
  rcases hl : e.Route.lookup (req1.Method ++ "-" ++ req1.URL.Path) with _ | h
  · right
    exact ⟨ServeHTTP_miss urlString e w1 req1 hl,
      ServeHTTP_miss urlString e w2 req2 (hk ▸ hl)⟩
  · left
    exact ⟨h, ServeHTTP_hit urlString e w1 req1 h hl,
      ServeHTTP_hit urlString e w2 req2 h (hk ▸ hl)⟩

/-- Witness for C12: `GET /hello` is registered; one request is the plain
`GET /hello`, the other has the same method and path and a scheme, host, query,
fragment, header and body of its own. -/
theorem C12_selection_depends_on_method_and_path_witness :
    ((plainRequest "GET" "/hello").Method =
        (Request.mk "GET" ⟨"http", "example.com", "/hello", "x=1", "top"⟩
          [("Accept", "text/plain")] "payload" "example.com").Method ∧
      (plainRequest "GET" "/hello").URL.Path =
        (Request.mk "GET" ⟨"http", "example.com", "/hello", "x=1", "top"⟩
          [("Accept", "text/plain")] "payload" "example.com").URL.Path) ∧
    ((New.GET "/hello" (writeText "hello")).ServeHTTP pathAndQuery emptyWriter
        (plainRequest "GET" "/hello")).calls.map Call.handler =
      ((New.GET "/hello" (writeText "hello")).ServeHTTP pathAndQuery emptyWriter
        (Request.mk "GET" ⟨"http", "example.com", "/hello", "x=1", "top"⟩
          [("Accept", "text/plain")] "payload" "example.com")).calls.map Call.handler :=
  ⟨⟨rfl, rfl⟩,
    (C12_selection_depends_on_method_and_path pathAndQuery (New.GET "/hello" (writeText "hello"))
      emptyWriter emptyWriter (plainRequest "GET" "/hello")
      (Request.mk "GET" ⟨"http", "example.com", "/hello", "x=1", "top"⟩
        [("Accept", "text/plain")] "payload" "example.com") rfl rfl).2⟩

/-- C13: registrations of different routes commute.  For every router, all
patterns `p`, `q` and all handlers `h1`, `h2`: `GET(p, h1)` then `POST(q, h2)`
gives the same route table as `POST(q, h2)` then `GET(p, h1)`; and when `p` and
`q` differ, `GET(p, h1)` then `GET(q, h2)` gives the same table as the other
order, and so for `POST` twice.  In general two registrations commute unless
they have the same method and the same pattern. -/
theorem C13_registrations_commute (e : Engine) (p q : String) (h1 h2 : HandlerFunc)
    (r1 r2 : Registration) :
    (e.GET p h1).POST q h2 = (e.POST q h2).GET p h1 ∧
    ((e.GET p h1).POST q h2).Route = ((e.POST q h2).GET p h1).Route ∧
    (p ≠ q → (e.GET p h1).GET q h2 = (e.GET q h2).GET p h1) ∧
    (p ≠ q → (e.POST p h1).POST q h2 = (e.POST q h2).POST p h1) ∧
    (¬ (r1.method = r2.method ∧ r1.pattern = r2.pattern) →
      registerAll e [r1, r2] = registerAll e [r2, r1]) := by
  have hGP : (e.GET p h1).POST q h2 = (e.POST q h2).GET p h1 := by
    apply Engine_ext
    simp only [GET_Route, POST_Route]
    exact Finmap.insert_insert_of_ne _ (key_GET_ne_POST p q)
  refine ⟨hGP, by rw [hGP], ?_, ?_, ?_⟩
  · intro hpq
    apply Engine_ext
    simp only [GET_Route]
    exact Finmap.insert_insert_of_ne _ (fun hk => hpq (key_GET_inj hk))
  · intro hpq
    apply Engine_ext
    simp only [POST_Route]
    exact Finmap.insert_insert_of_ne _ (fun hk => hpq (key_POST_inj hk))
  · intro hne
    apply Engine_ext
    simp only [registerAll, List.foldl_cons, List.foldl_nil, apply_Route]
    exact Finmap.insert_insert_of_ne _ (fun hk => hne ((key_eq_iff r1 r2).mp hk))

/-- Witness for C13: on the fresh router, `GET /a` and `GET /b` are registered in
both orders, then `POST /a` and `POST /b`, then `GET /a` and `POST /a`. -/
theorem C13_registrations_commute_witness :
    "/a" ≠ "/b" ∧
    ¬ ((Registration.GET "/a" (writeText "a")).method =
          (Registration.POST "/a" (writeText "b")).method ∧
        (Registration.GET "/a" (writeText "a")).pattern =
          (Registration.POST "/a" (writeText "b")).pattern) ∧
    (New.GET "/a" (writeText "a")).GET "/b" (writeText "b") =
      (New.GET "/b" (writeText "b")).GET "/a" (writeText "a") ∧
    (New.POST "/a" (writeText "a")).POST "/b" (writeText "b") =
      (New.POST "/b" (writeText "b")).POST "/a" (writeText "a") ∧
    registerAll New [Registration.GET "/a" (writeText "a"),
        Registration.POST "/a" (writeText "b")] =
      registerAll New [Registration.POST "/a" (writeText "b"),
        Registration.GET "/a" (writeText "a")] :=
  ⟨by decide, by simp [Registration.method],
    (C13_registrations_commute New "/a" "/b" (writeText "a") (writeText "b")
      (Registration.GET "/a" (writeText "a")) (Registration.POST "/a" (writeText "b"))).2.2.1
      (by decide),
    (C13_registrations_commute New "/a" "/b" (writeText "a") (writeText "b")
      (Registration.GET "/a" (writeText "a")) (Registration.POST "/a" (writeText "b"))).2.2.2.1
      (by decide),
    (C13_registrations_commute New "/a" "/b" (writeText "a") (writeText "b")
      (Registration.GET "/a" (writeText "a")) (Registration.POST "/a" (writeText "b"))).2.2.2.2
      (by simp [Registration.method])⟩

end Gee
